import Mathlib

/-!
Verification development for the SCOP calculator in `src/main.py`
(`calculate_scop`).  Python floats are embedded as exact rationals (`ℚ`);
the `float('nan')` sentinel the code assigns to SCOP is embedded as the
`nan` constructor of `PyFloat`.  Runtime faults the Python code can raise
(the `ValueError` configuration check, `ZeroDivisionError` from a zero
monthly COP, `IndexError` from the six-entry month-name table) are
embedded as an `Except` error result.
-/

/-- Embedding of a Python float value as carried in the SCOP field: either an
exact numeric value or the distinguished not-a-number value `float('nan')`. -/
inductive PyFloat where
  | num (q : ℚ)
  | nan
deriving DecidableEq

/-- Python's `math.isnan` test on the embedded float. -/
def PyFloat.isNaN : PyFloat → Bool
  | PyFloat.nan => true
  | PyFloat.num _ => false

/-- The runtime errors `calculate_scop` can raise: the explicit `ValueError`
from the sizing check (line 41), `ZeroDivisionError` from `Qm / COP_m` when
`COP_m == 0` (line 68), and `IndexError` from the month-name list lookup
(line 52) when the loop index exceeds 5. -/
inductive CalcError where
  | configError (msg : String)
  | zeroDivisionError
  | indexError
deriving DecidableEq

/-- One entry of `monthly_data` (lines 73-81 of `src/main.py`). -/
structure MonthlyRecord where
  month : String
  T_menv : ℚ
  T_mout : ℚ
  days : ℚ
  COP_m : ℚ
  Qm_kWh : ℚ
  Pm_kWh : ℚ
deriving DecidableEq

/-- The `details` dict returned by `calculate_scop` (lines 91-97), with the
separately returned SCOP value folded in as its `SCOP` field. -/
structure SeasonResult where
  K : ℚ
  Q_total_kWh : ℚ
  P_total_kWh : ℚ
  SCOP : PyFloat
  monthly : List MonthlyRecord
deriving DecidableEq

instance exceptDecEq {ε α : Type} [DecidableEq ε] [DecidableEq α] :
    DecidableEq (Except ε α)
  | Except.ok x, Except.ok y =>
    if h : x = y then isTrue (by rw [h])
    else isFalse (fun hc => h (Except.ok.inj hc))
  | Except.error x, Except.error y =>
    if h : x = y then isTrue (by rw [h])
    else isFalse (fun hc => h (Except.error.inj hc))
  | Except.ok _, Except.error _ => isFalse Except.noConfusion
  | Except.error _, Except.ok _ => isFalse Except.noConfusion

/-- Line 22: `T_design = -7.2` (design outdoor temperature, °C). -/
def T_design : ℚ := -7.2

/-- Line 23: `T_room = 20.0` (indoor design temperature, °C). -/
def T_room : ℚ := 20.0

/-- Line 24: `delta_T_max = T_room - T_design` (= 27.2 °C). -/
def delta_T_max : ℚ := T_room - T_design

/-- Lines 27-29: maximum design heating power `P_hmax_design`, the fixed
quadratic in two variables evaluated at `T_design` and `T_out_design`. -/
def P_hmax_design (T_out_design : ℚ) : ℚ :=
  0.009111 * T_design ^ 2 + 5.736667 * T_design +
    (-0.073627) * T_out_design ^ 2 + 4.822 * T_out_design + 214.022667

/-- Lines 56-57: the monthly COP model
`COP_m = a*T_menv**2 + b*T_menv + c*T_mout + d` with
`a, b, c, d = 0.00035510, 0.0578, -0.0637, 6.0284`. -/
def COP_model (T_menv T_mout : ℚ) : ℚ :=
  0.00035510 * T_menv ^ 2 + 0.0578 * T_menv + (-0.0637) * T_mout + 6.0284

/-- Lines 32-41: derivation of the heat-transfer coefficient `K`.  The
`n_units` branch is tested first; the area branch requires both `area` and
`q_H`; otherwise the `ValueError` is raised. -/
def computeK (n_units area q_H : Option ℚ) (T_out_design : ℚ) :
    Except CalcError ℚ :=
  match n_units with
  | some n => Except.ok (n * P_hmax_design T_out_design / delta_T_max)
  | none =>
    match area, q_H with
    | some A, some q => Except.ok (A * q / 1000 / delta_T_max)
    | _, _ =>
      Except.error (CalcError.configError
        "必须提供 n_units（机组数）或 (area 和 q_H) 中的一组参数。")

/-- Line 52: the fixed month-name table `["11月","12月","1月","2月","3月","4月"]`;
indexing it at `i ≥ 6` raises `IndexError` in the Python source. -/
def monthNames : List String := ["11月", "12月", "1月", "2月", "3月", "4月"]

/-- Lines 53-68: the body of one loop iteration for a month with ambient
temperature `Te`, supply temperature `To` and `d` days.  `COP_m` is computed
unconditionally; if the differential `T_room - Te` is nonpositive the month
contributes zero heat and electricity, otherwise `Qm = K*ΔT*t_m` and
`Pm = Qm / COP_m`, which in Python raises `ZeroDivisionError` when
`COP_m == 0`. -/
def monthStep (K : ℚ) (name : String) (Te To d : ℚ) :
    Except CalcError MonthlyRecord :=
  let t_m := d * 24
  let COP_m := COP_model Te To
  let delta_T := T_room - Te
  if delta_T ≤ 0 then
    Except.ok ⟨name, Te, To, d, COP_m, 0, 0⟩
  else if COP_m = 0 then
    Except.error CalcError.zeroDivisionError
  else
    let Qm := K * delta_T * t_m
    Except.ok ⟨name, Te, To, d, COP_m, Qm, Qm / COP_m⟩

/-- Lines 51-81: the per-month loop.  `zip` stops at the shortest of the
three sequences; `i` is the `enumerate` index used for the month-name lookup;
`Qacc`/`Pacc` are the running totals `Q_total`/`P_total` accumulated in loop
order.  Returns the final totals and the `monthly_data` list. -/
def monthLoop (K : ℚ) : Nat → ℚ → ℚ → List ℚ → List ℚ → List ℚ →
    Except CalcError (ℚ × ℚ × List MonthlyRecord)
  | _, Qacc, Pacc, [], _, _ => Except.ok (Qacc, Pacc, [])
  | _, Qacc, Pacc, _ :: _, [], _ => Except.ok (Qacc, Pacc, [])
  | _, Qacc, Pacc, _ :: _, _ :: _, [] => Except.ok (Qacc, Pacc, [])
  | i, Qacc, Pacc, Te :: envs, To :: outs, d :: ds =>
    match monthNames[i]? with
    | none => Except.error CalcError.indexError
    | some name =>
      match monthStep K name Te To d with
      | Except.error e => Except.error e
      | Except.ok m =>
        match monthLoop K (i + 1) (Qacc + m.Qm_kWh) (Pacc + m.Pm_kWh)
            envs outs ds with
        | Except.error e => Except.error e
        | Except.ok (Q, P, l) => Except.ok (Q, P, m :: l)

/-- Lines 3-98: the whole of `calculate_scop`.  Derives `K`, runs the
monthly loop from zero totals, and sets `SCOP = Q_total / P_total` when
`P_total > 0`, else the `float('nan')` sentinel. -/
def calculate_scop (env_temps_monthly out_temps_monthly days_in_month : List ℚ)
    (n_units area q_H : Option ℚ) (T_out_design : ℚ) :
    Except CalcError SeasonResult :=
  match computeK n_units area q_H T_out_design with
  | Except.error e => Except.error e
  | Except.ok K =>
    match monthLoop K 0 0 0 env_temps_monthly out_temps_monthly days_in_month with
    | Except.error e => Except.error e
    | Except.ok (Q_total, P_total, monthly) =>
      Except.ok ⟨K, Q_total, P_total,
        if 0 < P_total then PyFloat.num (Q_total / P_total) else PyFloat.nan,
        monthly⟩

/-- `true` exactly when the call returned a result instead of raising. -/
def resultOk : Except CalcError SeasonResult → Bool
  | Except.ok _ => true
  | Except.error _ => false

/-- Length of the returned monthly breakdown, `none` when the call raised. -/
def monthlyLen : Except CalcError SeasonResult → Option Nat
  | Except.ok r => some r.monthly.length
  | Except.error _ => none

/-- The per-month contract of the accumulation loop, stated with the explicit
coefficients of the source: the recorded COP follows the COP model, a month
with positive differential records `Qm = K*ΔT*(days*24)` and `Pm = Qm/COP`,
and a month with nonpositive differential records zeros. -/
def RecordSpec (K : ℚ) (m : MonthlyRecord) : Prop :=
  m.COP_m = 0.00035510 * m.T_menv ^ 2 + 0.0578 * m.T_menv +
      (-0.0637) * m.T_mout + 6.0284 ∧
  (0 < T_room - m.T_menv →
    m.Qm_kWh = K * (T_room - m.T_menv) * (m.days * 24) ∧
    m.Pm_kWh = m.Qm_kWh / m.COP_m) ∧
  (T_room - m.T_menv ≤ 0 → m.Qm_kWh = 0 ∧ m.Pm_kWh = 0)

/-- Concrete November record for ambient 21 °C (differential ≤ 0). -/
def novRecord21 : MonthlyRecord := ⟨"11月", 21, 40, 1, COP_model 21 40, 0, 0⟩

/-- Concrete season result for the one-month run at ambient 21 °C. -/
def seasonResult21 : SeasonResult :=
  ⟨1 * P_hmax_design 45 / delta_T_max, 0, 0, PyFloat.nan, [novRecord21]⟩

/-- Concrete November record for ambient 25 °C (differential ≤ 0). -/
def novRecord25 : MonthlyRecord := ⟨"11月", 25, 40, 2, COP_model 25 40, 0, 0⟩

/-- Concrete season result for the one-month run at ambient 25 °C. -/
def seasonResult25 : SeasonResult :=
  ⟨1 * P_hmax_design 45 / delta_T_max, 0, 0, PyFloat.nan, [novRecord25]⟩

/-- Concrete November record for ambient 30 °C (differential ≤ 0). -/
def novRecord30 : MonthlyRecord := ⟨"11月", 30, 40, 3, COP_model 30 40, 0, 0⟩

/-- Concrete season result for the one-month run at ambient 30 °C with 2 units. -/
def seasonResult30 : SeasonResult :=
  ⟨2 * P_hmax_design 45 / delta_T_max, 0, 0, PyFloat.nan, [novRecord30]⟩

/-- Concrete season result for a run over the empty month lists. -/
def emptySeasonResult : SeasonResult :=
  ⟨1 * P_hmax_design 45 / delta_T_max, 0, 0, PyFloat.nan, []⟩

/-- Concrete monthly record produced by `monthStep` at ambient 10 °C. -/
def recordTe10 : MonthlyRecord :=
  ⟨"x", 10, 40, 1, COP_model 10 40, 1 * (T_room - 10) * (1 * 24),
    1 * (T_room - 10) * (1 * 24) / COP_model 10 40⟩

/-- Concrete monthly record produced by `monthStep` at ambient 0 °C. -/
def recordTe0 : MonthlyRecord :=
  ⟨"x", 0, 40, 1, COP_model 0 40, 1 * (T_room - 0) * (1 * 24),
    1 * (T_room - 0) * (1 * 24) / COP_model 0 40⟩

lemma monthStep_nonpos {K : ℚ} {name : String} {Te To d : ℚ}
    (h1 : T_room - Te ≤ 0) :
    monthStep K name Te To d =
      Except.ok ⟨name, Te, To, d, COP_model Te To, 0, 0⟩ := by
  simp [monthStep, h1]

lemma monthStep_pos {K : ℚ} {name : String} {Te To d : ℚ}
    (h1 : 0 < T_room - Te) (h2 : COP_model Te To ≠ 0) :
    monthStep K name Te To d =
      Except.ok ⟨name, Te, To, d, COP_model Te To,
        K * (T_room - Te) * (d * 24),
        K * (T_room - Te) * (d * 24) / COP_model Te To⟩ := by
  simp [monthStep, not_le.2 h1, h2]

lemma monthStep_isOk {K : ℚ} {name : String} {Te To d : ℚ}
    (hsafe : 0 < T_room - Te → COP_model Te To ≠ 0) :
    ∃ m, monthStep K name Te To d = Except.ok m := by
  by_cases h1 : T_room - Te ≤ 0
  · exact ⟨_, monthStep_nonpos h1⟩
  · exact ⟨_, monthStep_pos (not_le.1 h1) (hsafe (not_le.1 h1))⟩

lemma monthStep_recordSpec {K : ℚ} {name : String} {Te To d : ℚ}
    {m : MonthlyRecord} (h : monthStep K name Te To d = Except.ok m) :
    RecordSpec K m := by
  by_cases h1 : T_room - Te ≤ 0
  · rw [monthStep_nonpos h1] at h
    injection h with h
    subst h
    exact ⟨rfl, fun hc => absurd h1 (not_le.2 hc), fun _ => ⟨rfl, rfl⟩⟩
  · have h1' : 0 < T_room - Te := not_le.1 h1
    have h2 : COP_model Te To ≠ 0 := by
      intro hc
      rw [monthStep] at h
      simp [not_le.2 h1', hc] at h
    rw [monthStep_pos h1' h2] at h
    injection h with h
    subst h
    exact ⟨rfl, fun _ => ⟨rfl, rfl⟩, fun hc => absurd hc (not_le.2 h1')⟩

lemma monthLoop_totals :
    ∀ (env out days : List ℚ) (K : ℚ) (i : Nat) (Qa Pa Q P : ℚ)
      (l : List MonthlyRecord),
      monthLoop K i Qa Pa env out days = Except.ok (Q, P, l) →
      Q = Qa + (l.map MonthlyRecord.Qm_kWh).sum ∧
      P = Pa + (l.map MonthlyRecord.Pm_kWh).sum := by
  intro env
  induction env with
  | nil =>
    intro out days K i Qa Pa Q P l h
    simp only [monthLoop, Except.ok.injEq, Prod.mk.injEq] at h
    rcases h with ⟨rfl, rfl, rfl⟩
    simp
  | cons Te envs ih =>
    intro out days K i Qa Pa Q P l h
    cases out with
    | nil =>
      simp only [monthLoop, Except.ok.injEq, Prod.mk.injEq] at h
      rcases h with ⟨rfl, rfl, rfl⟩
      simp
    | cons To outs =>
      cases days with
      | nil =>
        simp only [monthLoop, Except.ok.injEq, Prod.mk.injEq] at h
        rcases h with ⟨rfl, rfl, rfl⟩
        simp
      | cons d ds =>
        simp only [monthLoop] at h
        split at h
        · exact absurd h (by simp)
        split at h
        · exact absurd h (by simp)
        next m hm =>
          split at h
          · exact absurd h (by simp)
          next Q' P' l' hrec =>
            simp only [Except.ok.injEq, Prod.mk.injEq] at h
            rcases h with ⟨rfl, rfl, rfl⟩
            obtain ⟨hQ, hP⟩ :=
              ih outs ds K (i + 1) (Qa + m.Qm_kWh) (Pa + m.Pm_kWh) Q' P' l' hrec
            refine ⟨?_, ?_⟩
            · rw [hQ]; simp [List.map_cons]; ring
            · rw [hP]; simp [List.map_cons]; ring

lemma monthLoop_recordSpec :
    ∀ (env out days : List ℚ) (K : ℚ) (i : Nat) (Qa Pa Q P : ℚ)
      (l : List MonthlyRecord),
      monthLoop K i Qa Pa env out days = Except.ok (Q, P, l) →
      ∀ m ∈ l, RecordSpec K m := by
  intro env
  induction env with
  | nil =>
    intro out days K i Qa Pa Q P l h
    simp only [monthLoop, Except.ok.injEq, Prod.mk.injEq] at h
    rcases h with ⟨rfl, rfl, rfl⟩
    simp
  | cons Te envs ih =>
    intro out days K i Qa Pa Q P l h
    cases out with
    | nil =>
      simp only [monthLoop, Except.ok.injEq, Prod.mk.injEq] at h
      rcases h with ⟨rfl, rfl, rfl⟩
      simp
    | cons To outs =>
      cases days with
      | nil =>
        simp only [monthLoop, Except.ok.injEq, Prod.mk.injEq] at h
        rcases h with ⟨rfl, rfl, rfl⟩
        simp
      | cons d ds =>
        simp only [monthLoop] at h
        split at h
        · exact absurd h (by simp)
        next name hname =>
          split at h
          · exact absurd h (by simp)
          next m hm =>
            split at h
            · exact absurd h (by simp)
            next Q' P' l' hrec =>
              simp only [Except.ok.injEq, Prod.mk.injEq] at h
              rcases h with ⟨rfl, rfl, rfl⟩
              intro m0 hm0
              rcases List.mem_cons.1 hm0 with hm0 | hm0
              · subst hm0
                exact monthStep_recordSpec hm
              · exact ih outs ds K (i + 1) (Qa + m.Qm_kWh) (Pa + m.Pm_kWh)
                  Q' P' l' hrec m0 hm0

lemma monthLoop_zero :
    ∀ (env out days : List ℚ) (K : ℚ) (i : Nat) (Qa Pa Q P : ℚ)
      (l : List MonthlyRecord),
      monthLoop K i Qa Pa env out days = Except.ok (Q, P, l) →
      (∀ Te ∈ env, T_room - Te ≤ 0) →
      Q = Qa ∧ P = Pa := by
  intro env
  induction env with
  | nil =>
    intro out days K i Qa Pa Q P l h _
    simp only [monthLoop, Except.ok.injEq, Prod.mk.injEq] at h
    rcases h with ⟨rfl, rfl, rfl⟩
    exact ⟨rfl, rfl⟩
  | cons Te envs ih =>
    intro out days K i Qa Pa Q P l h hwarm
    cases out with
    | nil =>
      simp only [monthLoop, Except.ok.injEq, Prod.mk.injEq] at h
      rcases h with ⟨rfl, rfl, rfl⟩
      exact ⟨rfl, rfl⟩
    | cons To outs =>
      cases days with
      | nil =>
        simp only [monthLoop, Except.ok.injEq, Prod.mk.injEq] at h
        rcases h with ⟨rfl, rfl, rfl⟩
        exact ⟨rfl, rfl⟩
      | cons d ds =>
        simp only [monthLoop] at h
        split at h
        · exact absurd h (by simp)
        next name hname =>
          split at h
          · exact absurd h (by simp)
          next m hm =>
            split at h
            · exact absurd h (by simp)
            next Q' P' l' hrec =>
              simp only [Except.ok.injEq, Prod.mk.injEq] at h
              rcases h with ⟨rfl, rfl, rfl⟩
              rw [monthStep_nonpos (hwarm Te (List.mem_cons_self Te envs))] at hm
              injection hm with hm
              subst hm
              have := ih outs ds K (i + 1) (Qa + 0) (Pa + 0) Q' P' l' hrec
                (fun Te' hTe' => hwarm Te' (List.mem_cons_of_mem Te hTe'))
              simpa using this

lemma monthLoop_ok_len :
    ∀ (env out days : List ℚ) (K : ℚ) (i : Nat) (Qa Pa : ℚ),
      i + min (min env.length out.length) days.length ≤ 6 →
      (∀ p ∈ (env.zip out).take days.length,
        0 < T_room - p.1 → COP_model p.1 p.2 ≠ 0) →
      ∃ Q P l, monthLoop K i Qa Pa env out days = Except.ok (Q, P, l) ∧
        l.length = min (min env.length out.length) days.length := by
  intro env
  induction env with
  | nil =>
    intro out days K i Qa Pa hlen hsafe
    exact ⟨Qa, Pa, [], by simp [monthLoop], by simp⟩
  | cons Te envs ih =>
    intro out days K i Qa Pa hlen hsafe
    cases out with
    | nil => exact ⟨Qa, Pa, [], by simp [monthLoop], by simp⟩
    | cons To outs =>
      cases days with
      | nil => exact ⟨Qa, Pa, [], by simp [monthLoop], by simp⟩
      | cons d ds =>
        have hmin : min (min (Te :: envs).length (To :: outs).length)
            (d :: ds).length = min (min envs.length outs.length) ds.length + 1 := by
          simp only [List.length_cons]
          omega
        rw [hmin] at hlen
        have hi : i < monthNames.length := by
          simp only [monthNames, List.length_cons, List.length_nil]
          omega
        have hg : monthNames[i]? = some (monthNames.get ⟨i, hi⟩) := by
          rw [List.getElem?_eq_getElem hi]
          rfl
        obtain ⟨m, hm⟩ := @monthStep_isOk K (monthNames.get ⟨i, hi⟩) Te To d
          (hsafe (Te, To)
            (by
              rw [List.zip_cons_cons, List.length_cons, List.take_succ_cons]
              exact List.mem_cons_self _ _))
        obtain ⟨Q, P, l, hrec, hlenl⟩ :=
          ih outs ds K (i + 1) (Qa + m.Qm_kWh) (Pa + m.Pm_kWh) (by omega)
            (fun p hp => hsafe p
              (by
                rw [List.zip_cons_cons, List.length_cons, List.take_succ_cons]
                exact List.mem_cons_of_mem _ hp))
        refine ⟨Q, P, m :: l, ?_, ?_⟩
        · simp only [monthLoop, hg, hm, hrec]
        · simp only [List.length_cons, hlenl]
          omega

lemma calculate_scop_ok {env out days : List ℚ} {nu a q : Option ℚ} {T : ℚ}
    {r : SeasonResult}
    (h : calculate_scop env out days nu a q T = Except.ok r) :
    ∃ K Q P l, computeK nu a q T = Except.ok K ∧
      monthLoop K 0 0 0 env out days = Except.ok (Q, P, l) ∧
      r = ⟨K, Q, P, if 0 < P then PyFloat.num (Q / P) else PyFloat.nan, l⟩ := by
  unfold calculate_scop at h
  split at h
  · exact absurd h (by simp)
  next K hK =>
    split at h
    · exact absurd h (by simp)
    next Q P l hL =>
      injection h with h
      exact ⟨K, Q, P, l, hK, hL, h.symm⟩

/-- Claim C1, as stated: at a concrete input whose total electricity is zero
(the single month is warmer than the indoor design temperature), the SCOP
field of the returned result is exactly the embedded `float('nan')` value —
a language-native not-a-number — refuting the claim that it is a distinct
non-NaN sentinel variant. -/
theorem scop_nan_counterexample :
    (calculate_scop [21] [40] [1] (some 1) none none 45).map SeasonResult.SCOP =
      Except.ok PyFloat.nan ∧ PyFloat.isNaN PyFloat.nan = true := by
  constructor
  · norm_num [calculate_scop, computeK, monthLoop, monthStep, monthNames,
      COP_model, T_room, Except.map]
  · rfl

/-- Claim C1 (amended): when the total electricity consumed over the season
is zero, the SCOP field of the result returned by `calculate_scop` is the
language-native floating-point not-a-number value `float('nan')`; an is-NaN
check detects it and it equals no numeric float value, but it is not a
distinct sentinel/result variant. -/
theorem scop_zero_electricity_is_nan (env out days : List ℚ)
    (nu a q : Option ℚ) (T : ℚ) (r : SeasonResult)
    (h : calculate_scop env out days nu a q T = Except.ok r)
    (hz : r.P_total_kWh = 0) :
    r.SCOP = PyFloat.nan ∧ PyFloat.isNaN r.SCOP = true ∧
      ∀ v : ℚ, r.SCOP ≠ PyFloat.num v := by
  obtain ⟨K, Q, P, l, hK, hL, hr⟩ := calculate_scop_ok h
  subst hr
  have hP : P = 0 := hz
  have hS : (⟨K, Q, P, if 0 < P then PyFloat.num (Q / P) else PyFloat.nan, l⟩ :
      SeasonResult).SCOP = PyFloat.nan := by
    show (if 0 < P then PyFloat.num (Q / P) else PyFloat.nan) = PyFloat.nan
    rw [hP, if_neg (lt_irrefl (0 : ℚ))]
  refine ⟨hS, ?_, ?_⟩
  · rw [hS]
    rfl
  · intro v
    rw [hS]
    exact fun hc => PyFloat.noConfusion hc

/-- Claim C1 witness: the amended theorem applied to the concrete one-month
run at ambient 21 °C, whose total electricity is zero. -/
theorem scop_zero_electricity_is_nan_witness :
    seasonResult21.SCOP = PyFloat.nan ∧
      PyFloat.isNaN seasonResult21.SCOP = true ∧
      seasonResult21.SCOP ≠ PyFloat.num 0 := by
  have h := scop_zero_electricity_is_nan [21] [40] [1] (some 1) none none 45
    seasonResult21
    (by norm_num [calculate_scop, computeK, monthLoop, monthStep, monthNames,
      COP_model, T_room, seasonResult21, novRecord21])
    (by norm_num [seasonResult21])
  exact ⟨h.1, h.2.1, h.2.2 0⟩

/-- Claim C2, as stated: at a concrete call in which both sizing groups are
fully supplied (`n_units`, `area` and `q_H` all given), `calculate_scop`
returns a result instead of failing with a configuration error. -/
theorem both_groups_counterexample :
    resultOk (calculate_scop [0] [40] [31] (some 1) (some 1) (some 1) 45) =
      true := by
  norm_num [calculate_scop, computeK, monthLoop, monthStep, monthNames,
    COP_model, T_room, resultOk]

/-- Claim C2 (amended): when both sizing groups are fully supplied, the call
does not fail: the `n_units` branch is tested first, so the unit-count
method silently takes precedence and the result is identical to the call
supplying only `n_units`. -/
theorem unit_method_precedence (env out days : List ℚ) (n : ℚ)
    (area q_H : Option ℚ) (T : ℚ) :
    calculate_scop env out days (some n) area q_H T =
      calculate_scop env out days (some n) none none T := rfl

/-- Claim C3, as stated: the per-month division is not total — at a concrete
input passing the configuration check, with ambient 0 °C (differential 20 > 0)
and supply temperature 60284/637 °C making the monthly COP exactly zero, the
computation raises `ZeroDivisionError` during the monthly accumulation, not a
configuration error before it. -/
theorem zero_cop_division_counterexample :
    calculate_scop [0] [60284 / 637] [1] (some 1) none none 45 =
      Except.error CalcError.zeroDivisionError := by
  norm_num [calculate_scop, computeK, monthLoop, monthStep, monthNames,
    COP_model, T_room]

/-- Claim C3 (amended): for every input that passes the sizing-parameter
configuration check, has at most 6 months (the month-name table size), and
whose monthly COP is nonzero for every month with positive differential, the
whole computation completes and returns a result without any runtime fault. -/
theorem total_computation_ok (env out days : List ℚ) (nu a q : Option ℚ)
    (K T : ℚ) (hK : computeK nu a q T = Except.ok K)
    (hlen : min (min env.length out.length) days.length ≤ 6)
    (hsafe : ∀ p ∈ env.zip out, 0 < T_room - p.1 → COP_model p.1 p.2 ≠ 0) :
    resultOk (calculate_scop env out days nu a q T) = true := by
  obtain ⟨Q, P, l, hL, _⟩ :=
    monthLoop_ok_len env out days K 0 0 0 (by omega)
      (fun p hp => hsafe p (List.take_subset _ _ hp))
  unfold calculate_scop
  split
  next e he =>
    rw [hK] at he
    simp at he
  next K' hK' =>
    rw [hK] at hK'
    injection hK' with hK'
    subst hK'
    split
    next e he =>
      rw [hL] at he
      simp at he
    next Q' P' l' hL' => rfl

/-- Claim C3 witness: the amended theorem applied to a concrete one-month
safe input. -/
theorem total_computation_ok_witness :
    resultOk (calculate_scop [0] [40] [1] (some 1) none none 45) = true :=
  total_computation_ok [0] [40] [1] (some 1) none none
    (1 * P_hmax_design 45 / delta_T_max) 45 rfl (by simp)
    (by
      intro p hp
      simp [List.zip_cons_cons] at hp
      subst hp
      intro _
      norm_num [COP_model])

/-- Claim C4 (confirmed): if `n_units` is absent and at least one of `area`
and `q_H` is absent, `calculate_scop` fails with the configuration
`ValueError` of line 41 instead of returning a result. -/
theorem missing_params_config_error (env out days : List ℚ)
    (area q_H : Option ℚ) (T : ℚ) (h : area = none ∨ q_H = none) :
    calculate_scop env out days none area q_H T =
      Except.error (CalcError.configError
        "必须提供 n_units（机组数）或 (area 和 q_H) 中的一组参数。") := by
  rcases h with h | h
  · subst h
    rfl
  · subst h
    cases area with
    | none => rfl
    | some A => rfl

/-- Claim C4 witness: the theorem applied to the call supplying no sizing
parameters at all. -/
theorem missing_params_config_error_witness :
    calculate_scop [] [] [] none none none 45 =
      Except.error (CalcError.configError
        "必须提供 n_units（机组数）或 (area 和 q_H) 中的一组参数。") :=
  missing_params_config_error [] [] [] none none 45 (Or.inl rfl)

/-- Claim C5 (confirmed): every record of the returned monthly sequence
satisfies the per-month formulas with the source's explicit coefficients —
COP from the quadratic model, and for positive differential
`Qm = K * ΔT * (days*24)`, `Pm = Qm / COP`, else both zero (`RecordSpec`). -/
theorem monthly_record_formulas (env out days : List ℚ) (nu a q : Option ℚ)
    (T : ℚ) (r : SeasonResult)
    (h : calculate_scop env out days nu a q T = Except.ok r) :
    ∀ m ∈ r.monthly, RecordSpec r.K m := by
  obtain ⟨K, Q, P, l, hK, hL, hr⟩ := calculate_scop_ok h
  subst hr
  intro m hm
  exact monthLoop_recordSpec env out days K 0 0 0 Q P l hL m hm

/-- Claim C5 witness: the theorem applied to the concrete one-month run at
ambient 25 °C. -/
theorem monthly_record_formulas_witness :
    RecordSpec seasonResult25.K novRecord25 :=
  monthly_record_formulas [25] [40] [2] (some 1) none none 45 seasonResult25
    (by norm_num [calculate_scop, computeK, monthLoop, monthStep, monthNames,
      COP_model, T_room, seasonResult25, novRecord25])
    novRecord25 (by simp [seasonResult25])

/-- Claim C6 (confirmed): the design capacity is the fixed two-variable
quadratic at `T_design = -7.2` and the given outlet design temperature; the
unit-count method yields `K = n * capacity / (T_room - T_design)`, the area
method yields `K = area * q_H / 1000 / (T_room - T_design)`; and at the
documented default `T_out_design = 45` each method gives `K > 0` for positive
inputs. -/
theorem K_formula_and_positivity (n A q T : ℚ) :
    P_hmax_design T =
      0.009111 * (-7.2 : ℚ) ^ 2 + 5.736667 * (-7.2) +
        (-0.073627) * T ^ 2 + 4.822 * T + 214.022667 ∧
    computeK (some n) none none T =
      Except.ok (n * P_hmax_design T / (T_room - T_design)) ∧
    computeK none (some A) (some q) T =
      Except.ok (A * q / 1000 / (T_room - T_design)) ∧
    (0 < n → 0 < n * P_hmax_design 45 / (T_room - T_design)) ∧
    (0 < A → 0 < q → 0 < A * q / 1000 / (T_room - T_design)) := by
  refine ⟨rfl, rfl, rfl, fun hn => ?_, fun hA hq => ?_⟩
  · have hP : (0 : ℚ) < P_hmax_design 45 := by
      norm_num [P_hmax_design, T_design]
    have hD : (0 : ℚ) < T_room - T_design := by norm_num [T_room, T_design]
    exact div_pos (mul_pos hn hP) hD
  · have hD : (0 : ℚ) < T_room - T_design := by norm_num [T_room, T_design]
    exact div_pos (div_pos (mul_pos hA hq) (by norm_num)) hD

/-- Claim C6 witness: positivity of `K` under both methods at unit inputs. -/
theorem K_formula_and_positivity_witness :
    0 < 1 * P_hmax_design 45 / (T_room - T_design) ∧
      0 < (1 : ℚ) * 1 / 1000 / (T_room - T_design) :=
  ⟨(K_formula_and_positivity 1 1 1 45).2.2.2.1 (by norm_num),
   (K_formula_and_positivity 1 1 1 45).2.2.2.2 (by norm_num) (by norm_num)⟩

/-- Claim C7 (confirmed): for every call that returns a result, the total
heat field equals exactly the sum of the monthly heat values, and likewise
for total electricity. -/
theorem totals_equal_monthly_sums (env out days : List ℚ)
    (nu a q : Option ℚ) (T : ℚ) (r : SeasonResult)
    (h : calculate_scop env out days nu a q T = Except.ok r) :
    r.Q_total_kWh = (r.monthly.map MonthlyRecord.Qm_kWh).sum ∧
      r.P_total_kWh = (r.monthly.map MonthlyRecord.Pm_kWh).sum := by
  obtain ⟨K, Q, P, l, hK, hL, hr⟩ := calculate_scop_ok h
  subst hr
  have := monthLoop_totals env out days K 0 0 0 Q P l hL
  simpa using this

/-- Claim C7 witness: the theorem applied to the empty-season run. -/
theorem totals_equal_monthly_sums_witness :
    emptySeasonResult.Q_total_kWh =
        (emptySeasonResult.monthly.map MonthlyRecord.Qm_kWh).sum ∧
      emptySeasonResult.P_total_kWh =
        (emptySeasonResult.monthly.map MonthlyRecord.Pm_kWh).sum :=
  totals_equal_monthly_sums [] [] [] (some 1) none none 45 emptySeasonResult
    (by norm_num [calculate_scop, computeK, monthLoop, emptySeasonResult])

/-- Claim C8 (confirmed): if every month's differential is nonpositive
(every ambient temperature is at least the indoor design temperature), the
total electricity is 0 and the SCOP field is the undefined sentinel. -/
theorem warm_season_zero_electricity_nan (env out days : List ℚ)
    (nu a q : Option ℚ) (T : ℚ) (r : SeasonResult)
    (h : calculate_scop env out days nu a q T = Except.ok r)
    (hwarm : ∀ Te ∈ env, T_room - Te ≤ 0) :
    r.P_total_kWh = 0 ∧ r.SCOP = PyFloat.nan := by
  obtain ⟨K, Q, P, l, hK, hL, hr⟩ := calculate_scop_ok h
  obtain ⟨hQ, hP⟩ := monthLoop_zero env out days K 0 0 0 Q P l hL hwarm
  subst hr
  refine ⟨hP, ?_⟩
  show (if 0 < P then PyFloat.num (Q / P) else PyFloat.nan) = PyFloat.nan
  rw [hP, if_neg (lt_irrefl (0 : ℚ))]

/-- Claim C8 witness: the theorem applied to the concrete one-month run at
ambient 30 °C. -/
theorem warm_season_zero_electricity_nan_witness :
    seasonResult30.P_total_kWh = 0 ∧ seasonResult30.SCOP = PyFloat.nan :=
  warm_season_zero_electricity_nan [30] [40] [3] (some 2) none none 45
    seasonResult30
    (by norm_num [calculate_scop, computeK, monthLoop, monthStep, monthNames,
      COP_model, T_room, seasonResult30, novRecord30])
    (by
      intro Te hTe
      simp at hTe
      subst hTe
      norm_num [T_room])

/-- Claim C9 (confirmed): holding `K > 0`, `days > 0` and the supply
temperature fixed, strictly decreasing the ambient temperature of a month
whose differential stays strictly positive strictly increases that month's
heat delivered. -/
theorem colder_month_more_heat (K : ℚ) (name : String) (Te1 Te2 To d : ℚ)
    (m1 m2 : MonthlyRecord) (hK : 0 < K) (hd : 0 < d) (hTe : Te2 < Te1)
    (hdiff : 0 < T_room - Te1)
    (h1 : monthStep K name Te1 To d = Except.ok m1)
    (h2 : monthStep K name Te2 To d = Except.ok m2) :
    m1.Qm_kWh < m2.Qm_kWh := by
  have hdiff2 : 0 < T_room - Te2 := by linarith
  have hcop1 : COP_model Te1 To ≠ 0 := by
    intro hc
    simp [monthStep, not_le.2 hdiff, hc] at h1
  have hcop2 : COP_model Te2 To ≠ 0 := by
    intro hc
    simp [monthStep, not_le.2 hdiff2, hc] at h2
  rw [monthStep_pos hdiff hcop1] at h1
  rw [monthStep_pos hdiff2 hcop2] at h2
  injection h1 with h1
  injection h2 with h2
  subst h1
  subst h2
  show K * (T_room - Te1) * (d * 24) < K * (T_room - Te2) * (d * 24)
  have h24 : (0 : ℚ) < d * 24 := mul_pos hd (by norm_num)
  have hlt : T_room - Te1 < T_room - Te2 := by linarith
  exact mul_lt_mul_of_pos_right (mul_lt_mul_of_pos_left hlt hK) h24

/-- Claim C9 witness: the theorem applied to two concrete months at ambient
10 °C and 0 °C. -/
theorem colder_month_more_heat_witness :
    recordTe10.Qm_kWh < recordTe0.Qm_kWh :=
  colder_month_more_heat 1 "x" 10 0 40 1 recordTe10 recordTe0
    (by norm_num) (by norm_num) (by norm_num) (by norm_num [T_room])
    (monthStep_pos (by norm_num [T_room]) (by norm_num [COP_model]))
    (monthStep_pos (by norm_num [T_room]) (by norm_num [COP_model]))

/-- Claim C10, as stated: unequal lengths do not always truncate silently —
at a concrete input with sequences of unequal lengths 7, 7 and 8, the
min-length prefix exceeds the six-entry month-name table, and the call
raises `IndexError` instead of returning a truncated result. -/
theorem length_seven_index_error_counterexample :
    calculate_scop (List.replicate 7 0) (List.replicate 7 0)
        (List.replicate 8 1) (some 1) none none 45 =
      Except.error CalcError.indexError := by
  norm_num [calculate_scop, computeK, monthLoop, monthStep, monthNames,
    COP_model, T_room, List.replicate]

/-- Claim C10 (amended): when the three sequences have unequal lengths,
`calculate_scop` does not raise a length error: it silently iterates only
the first min-length prefix — the months of `(env.zip out).take days.length`
— and, provided the min length is at most 6 (the month-name table size), the
sizing configuration is valid, and no month of that iterated prefix has
positive differential with zero COP, it returns a result whose monthly
sequence has exactly that truncated length (totals are accumulated over only
those months); months beyond the iterated prefix are never computed and
cannot fault; if the min length exceeds 6 the month-name lookup raises
IndexError instead. -/
theorem min_prefix_truncation (env out days : List ℚ) (nu a q : Option ℚ)
    (K T : ℚ) (hK : computeK nu a q T = Except.ok K)
    (hlen : min (min env.length out.length) days.length ≤ 6)
    (hsafe : ∀ p ∈ (env.zip out).take days.length,
      0 < T_room - p.1 → COP_model p.1 p.2 ≠ 0) :
    monthlyLen (calculate_scop env out days nu a q T) =
      some (min (min env.length out.length) days.length) := by
  obtain ⟨Q, P, l, hL, hlenl⟩ :=
    monthLoop_ok_len env out days K 0 0 0 (by omega) hsafe
  unfold calculate_scop
  split
  next e he =>
    rw [hK] at he
    simp at he
  next K' hK' =>
    rw [hK] at hK'
    injection hK' with hK'
    subst hK'
    split
    next e he =>
      rw [hL] at he
      simp at he
    next Q' P' l' hL' =>
      rw [hL] at hL'
      simp only [Except.ok.injEq, Prod.mk.injEq] at hL'
      rcases hL' with ⟨rfl, rfl, rfl⟩
      show some l.length = some (min (min env.length out.length) days.length)
      rw [hlenl]

/-- Claim C10 witness: the amended theorem applied to a concrete unequal-
length input (lengths 2, 2 and 1) whose second month — beyond the iterated
prefix because `days` is shortest — has zero COP with positive differential:
the call still returns the truncated result of min length 1. -/
theorem min_prefix_truncation_witness :
    monthlyLen (calculate_scop [0, 0] [40, 60284 / 637] [1]
        (some 1) none none 45) =
      some (min (min [(0 : ℚ), 0].length [(40 : ℚ), 60284 / 637].length)
        [(1 : ℚ)].length) :=
  min_prefix_truncation [0, 0] [40, 60284 / 637] [1] (some 1) none none
    (1 * P_hmax_design 45 / delta_T_max) 45 rfl (by simp)
    (by
      intro p hp
      simp [List.zip_cons_cons, List.take_succ_cons] at hp
      subst hp
      intro _
      norm_num [COP_model])
